import Mathlib

/-!
Shallow embedding of the session-state and streaming-response pipeline of
the groq-chatbot repository (src/groq_chat/handlers.py and
src/groq_chat/bot.py).

A session is the per-user `context.user_data` dictionary: the keys
`messages`, `system_prompt`, `model` and `voice_enabled` are modelled as
`Option` fields, `none` meaning the key is absent.  The Telegram
transport, the completion stream and the text-to-speech step are external
collaborators; they enter the model as explicit parameters (the fragment
list yielded by the stream, the transport's per-edit responses, and
failure flags for the voice step).
-/

/-- A chat role, as stored in the `role` field of a history entry. -/
inductive Role
| system
| user
| assistant
deriving DecidableEq

/-- One entry of `context.user_data["messages"]`. -/
structure Turn where
  role : Role
  content : String
deriving DecidableEq

/-- The per-user state kept in `context.user_data`; `none` = key absent. -/
structure Session where
  messages : Option (List Turn)
  system_prompt : Option String
  model : Option String
  voice_enabled : Option Bool
deriving DecidableEq

/-- The session's history as the code reads it:
`context.user_data.get("messages", [])`. -/
def history (s : Session) : List Turn := s.messages.getD []

/-- A fresh user's session: no keys present yet. -/
def s0 : Session :=
  { messages := none, system_prompt := none, model := none, voice_enabled := none }

/-- handlers.py `new_chat` (lines 45-54): if `system_prompt` is set,
`messages` becomes the single system turn carrying it, otherwise `[]`. -/
def new_chat (s : Session) : Session :=
  match s.system_prompt with
  | some p => { s with messages := some [{ role := Role.system, content := p }] }
  | none => { s with messages := some [] }

/-- The prompt-change conversation state after a handler returns:
`SYSTEM_PROMPT_SP` keeps the conversation waiting for a prompt,
`ConversationHandler.END` returns it to idle. -/
inductive PromptFlow
| awaitingPrompt
| idle
deriving DecidableEq

/-- handlers.py `get_system_prompt` (lines 159-169): if the message text
lowercased and stripped equals "clear", pop `system_prompt`, otherwise set
it to the literal text; then call `new_chat` and end the conversation. -/
def get_system_prompt (text : String) (s : Session) : Session × PromptFlow :=
  let s' := if text.toLower.trim = "clear"
    then { s with system_prompt := none }
    else { s with system_prompt := some text }
  (new_chat s', PromptFlow.idle)

/-- handlers.py `audio_command_handler` (lines 172-179): read
`voice_enabled` with default `True`, negate it, store it back.  bot.py's
inline `audio_command` (lines 76-86) performs the same update. -/
def audio_command_handler (s : Session) : Session :=
  { s with voice_enabled := some (!(s.voice_enabled.getD true)) }

/-- handlers.py `change_model_callback_handler` (lines 126-138): strip the
`change_model_` marker from the callback data and store the model. -/
def change_model_callback_handler (data : String) (s : Session) : Session :=
  { s with model := some (data.replace "change_model_" "") }

/-- handlers.py `info_command_handler` (lines 235-242), reduced to the
model identifier it interpolates into its reply:
`context.user_data.get("model", "llama3-8b-8192")`. -/
def info_command_handler (s : Session) : String :=
  s.model.getD "llama3-8b-8192"

/-- handlers.py `text_to_wav` (lines 57-70).  `detectResult` is the
outcome of `detect` (`none` = `LangDetectException` was raised);
`gttsFails` means the gTTS call raised.  The function handles both
failures itself: detection failure falls back to language "en", a gTTS
failure is logged and swallowed.  The result is the language of the saved
audio file, `none` when no file was saved; the function never raises. -/
def text_to_wav (detectResult : Option String) (gttsFails : Bool) : Option String :=
  let language := detectResult.getD "en"
  if gttsFails then none else some language

/-- HTML-escape one character (transport-safe markup, spec 4.3). -/
def escChar (c : Char) : String :=
  if c = '<' then "&lt;"
  else if c = '>' then "&gt;"
  else if c = '&' then "&amp;"
  else String.singleton c

/-- Render a character list; the flag records a currently open italic
span, which is implicitly closed when the input ends. -/
def renderChars : List Char → Bool → String
| [], false => ""
| [], true => "</i>"
| c :: rest, o =>
  if c = '*' then
    (if o then "</i>" ++ renderChars rest false else "<i>" ++ renderChars rest true)
  else escChar c ++ renderChars rest o

/-- Modelled from the spec: `format_message` lives in
groq_chat/html_format.py, which is code of this repository that is not
under src/.  Spec 4.3: the renderer turns a lightweight markup convention
into escaped transport markup, and an unterminated inline marker at the
current prefix boundary is rendered as if implicitly closed, the
provisional close being replaced when the true closing delimiter arrives
in a later fragment.  The model covers one inline marker (`*`, italic)
plus HTML escaping of the content. -/
def format_message (raw : String) : String :=
  renderChars raw.data false

/-- Transport response to one `edit_text` call (spec 6): accepted,
rejected as redundant (`NotModified`), rejected by rate limiting, or some
other error.  In python-telegram-bot every non-ok response is raised as an
exception at the call site. -/
inductive TResp
| ok
| notModified
| rateLimited
| err
deriving DecidableEq

/-- Accumulator of the fragment loop in `message_handler`: the current
text of the placeholder message, `full_output_message`, the texts passed
to `edit_text` so far, and the number of edit attempts made. -/
structure StreamState where
  display : String
  acc : String
  edits : List String
  idx : Nat
deriving DecidableEq

/-- Loop state on entry: the placeholder was just sent. -/
def streamInit : StreamState :=
  { display := "Generating response...", acc := "", edits := [], idx := 0 }

/-- A transport that accepts every edit. -/
def trOk : Nat → TResp := fun _ => TResp.ok

/-- The fragment loop of `message_handler` (handlers.py lines 200-206):
for each truthy fragment, append it to `full_output_message`, format the
accumulated text and `edit_text` the placeholder with it.  `tr n` is the
transport's response to the n-th edit; a non-ok response raises at the
call site, which aborts the loop (second component `false`).  The raising
attempt is still recorded in `edits`: it reached the transport. -/
def runStream (tr : Nat → TResp) : List (Option String) → StreamState → StreamState × Bool
| [], st => (st, true)
| f :: rest, st =>
  match f with
  | none => runStream tr rest st
  | some t =>
    if t = "" then runStream tr rest st
    else
      let acc' := st.acc ++ t
      let txt := format_message acc'
      match tr st.idx with
      | TResp.ok =>
          runStream tr rest
            { display := txt, acc := acc', edits := st.edits ++ [txt], idx := st.idx + 1 }
      | _ =>
          ({ display := st.display, acc := acc', edits := st.edits ++ [txt],
             idx := st.idx + 1 }, false)

/-- Lines 184-188 of `message_handler`: default the `model` and `messages`
keys when absent. -/
def ensureDefaults (s : Session) : Session :=
  { s with model := some (s.model.getD "llama-3.1-8b-instant"),
           messages := some (s.messages.getD []) }

/-- The history update of a successful turn: the user turn of the request
(committed by `generate_response`, see `message_handler`) followed by the
assistant turn appended at handlers.py lines 208-213. -/
def commitTurn (s : Session) (msg acc : String) : Session :=
  { s with messages := some (history s ++
      [{ role := Role.user, content := msg },
       { role := Role.assistant, content := acc }]) }

/-- Observable outcome of one `message_handler` call. -/
structure HandlerResult where
  session : Session
  placeholderSent : Bool
  completionCalled : Bool
  modelUsed : Option String
  edits : List String
  errorEdit : Bool
  voiceSent : Bool
deriving DecidableEq

/-- handlers.py `message_handler` (lines 182-232).  It defaults the
`model` and `messages` keys, sends the "Generating response..."
placeholder, returns early on an empty message text, and otherwise drives
the fragment loop.  On success it appends the turn to `messages` and runs
the voice step; on any exception (stream failure `streamFails`, or a
rejected edit) the blanket `except` replaces the output with a generic
failure notice (`errorEdit`) and appends nothing.

Modelled from the spec: `generate_response` lives in
groq_chat/groq_chat.py, which is code of this repository that is not
under src/.  Per spec 4.2 the completion client reads `history` and
yields fragments; per spec 4.4 and 8 a failed turn leaves `history`
byte-identical to its pre-turn value, so the user turn of the request is
committed together with the successful turn.  `frags` are the fragments
yielded before the stream either finishes or raises.

The voice step is the inner try of lines 217-228: `detectRes` and
`gttsFails` feed `text_to_wav`, `sendFails` means `reply_voice` raised;
every failure inside that block is caught by the inner `except` and only
logged. -/
def message_handler (s : Session) (msg : String) (frags : List (Option String))
    (tr : Nat → TResp) (streamFails : Bool) (detectRes : Option String)
    (gttsFails sendFails : Bool) : HandlerResult :=
  if msg = "" then
    { session := ensureDefaults s, placeholderSent := true, completionCalled := false,
      modelUsed := none, edits := [], errorEdit := false, voiceSent := false }
  else if ((runStream tr frags streamInit).2 && !streamFails) = true then
    { session := commitTurn (ensureDefaults s) msg (runStream tr frags streamInit).1.acc,
      placeholderSent := true, completionCalled := true,
      modelUsed := (ensureDefaults s).model,
      edits := (runStream tr frags streamInit).1.edits,
      errorEdit := false,
      voiceSent := ((ensureDefaults s).voice_enabled.getD true
        && (text_to_wav detectRes gttsFails).isSome && !sendFails) }
  else
    { session := ensureDefaults s, placeholderSent := true, completionCalled := true,
      modelUsed := (ensureDefaults s).model,
      edits := (runStream tr frags streamInit).1.edits,
      errorEdit := true, voiceSent := false }

/-- Spec 3 session invariant: if `system_prompt` is set, `history[0]`
exists, has role `system` and carries the prompt; if it is absent, no
turn has role `system`. -/
def sessionInvariant (s : Session) : Prop :=
  match s.system_prompt with
  | some p => (history s).head? = some { role := Role.system, content := p }
  | none => ∀ t ∈ history s, t.role ≠ Role.system

instance (s : Session) : Decidable (sessionInvariant s) := by
  unfold sessionInvariant
  rcases s.system_prompt with _ | p
  · exact inferInstanceAs (Decidable (∀ t ∈ history s, t.role ≠ Role.system))
  · exact inferInstanceAs
      (Decidable ((history s).head? = some { role := Role.system, content := p }))

/-- The mutating operations the handlers expose on a session. -/
inductive Op
| newChat
| sysPrompt (text : String)
| handleMsg (msg : String) (frags : List (Option String)) (tr : Nat → TResp)
    (streamFails : Bool) (detectRes : Option String) (gttsFails sendFails : Bool)
| audioToggle
| changeModel (data : String)

/-- The session after one mutating operation. -/
def applyOp : Op → Session → Session
| Op.newChat, s => new_chat s
| Op.sysPrompt t, s => (get_system_prompt t s).1
| Op.handleMsg m f tr sf dr gf sn, s => (message_handler s m f tr sf dr gf sn).session
| Op.audioToggle, s => audio_command_handler s
| Op.changeModel d, s => change_model_callback_handler d s

/-- The kind of an entry point registered on the Application. -/
inductive EntryKind
| command (name : String)
| plainMessage
| callbackQuery
deriving DecidableEq

/-- The filter a handler is registered with. -/
inductive HFilter
| authFilter
| messageFilter
| noFilter
deriving DecidableEq

/-- One `app.add_handler` registration. -/
structure HandlerReg where
  kind : EntryKind
  filter : HFilter
deriving DecidableEq

/-- handlers.py `start_bot` (lines 277-306): every registration, in
order; the two `cancel` entries are the CANCEL_SP state and the fallback
of the system-prompt ConversationHandler, the first plain-message entry is
its SYSTEM_PROMPT_SP state, the second is `message_handler`. -/
def handlersRegistrations : List HandlerReg :=
  [ { kind := EntryKind.command "start", filter := HFilter.authFilter },
    { kind := EntryKind.command "help", filter := HFilter.authFilter },
    { kind := EntryKind.command "new", filter := HFilter.authFilter },
    { kind := EntryKind.command "model", filter := HFilter.authFilter },
    { kind := EntryKind.command "info", filter := HFilter.authFilter },
    { kind := EntryKind.command "audio", filter := HFilter.authFilter },
    { kind := EntryKind.command "system_prompt", filter := HFilter.authFilter },
    { kind := EntryKind.plainMessage, filter := HFilter.messageFilter },
    { kind := EntryKind.command "cancel", filter := HFilter.authFilter },
    { kind := EntryKind.command "cancel", filter := HFilter.authFilter },
    { kind := EntryKind.plainMessage, filter := HFilter.messageFilter },
    { kind := EntryKind.callbackQuery, filter := HFilter.noFilter } ]

/-- bot.py `start_bot` (lines 69-117): the same registrations; the
`audio` command is the inline `audio_command` closure, also registered
with AuthFilter. -/
def botRegistrations : List HandlerReg :=
  [ { kind := EntryKind.command "start", filter := HFilter.authFilter },
    { kind := EntryKind.command "help", filter := HFilter.authFilter },
    { kind := EntryKind.command "new", filter := HFilter.authFilter },
    { kind := EntryKind.command "model", filter := HFilter.authFilter },
    { kind := EntryKind.command "info", filter := HFilter.authFilter },
    { kind := EntryKind.command "audio", filter := HFilter.authFilter },
    { kind := EntryKind.command "system_prompt", filter := HFilter.authFilter },
    { kind := EntryKind.plainMessage, filter := HFilter.messageFilter },
    { kind := EntryKind.command "cancel", filter := HFilter.authFilter },
    { kind := EntryKind.command "cancel", filter := HFilter.authFilter },
    { kind := EntryKind.plainMessage, filter := HFilter.messageFilter },
    { kind := EntryKind.callbackQuery, filter := HFilter.noFilter } ]

/-- Modelled from the spec: `AuthFilter` and `MessageFilter` live in
groq_chat/filters.py, which is code of this repository that is not under
src/.  Spec 6 requires every command entry point and the plain-message
entry point to check `isAuthorized`, so both filters pass only authorized
events; the callback-query handler is registered with no filter. -/
def filterPasses : HFilter → Bool → Bool
| HFilter.authFilter, authorized => authorized
| HFilter.messageFilter, authorized => authorized
| HFilter.noFilter, _ => true

/-- The router invokes a handler (and hence any reply can be produced)
exactly when the event passes the handler's filter; an event that passes
no filter is dropped silently. -/
def handlerInvoked (h : HandlerReg) (authorized : Bool) : Bool :=
  filterPasses h.filter authorized

/-- Command entry points and the plain-message entry point. -/
def isCoreEntry : EntryKind → Bool
| EntryKind.command _ => true
| EntryKind.plainMessage => true
| EntryKind.callbackQuery => false

/-- The edits pushed by the fragment loop when every edit is accepted:
one per non-empty fragment, carrying the render of the text accumulated
up to that fragment. -/
def renderedEdits (acc : String) : List (Option String) → List String
| [] => []
| f :: rest =>
  match f with
  | none => renderedEdits acc rest
  | some t =>
    if t = "" then renderedEdits acc rest
    else format_message (acc ++ t) :: renderedEdits (acc ++ t) rest

/-- Defaulting absent keys does not change the history the code reads. -/
theorem history_ensureDefaults (s : Session) : history (ensureDefaults s) = history s := by
  simp [history, ensureDefaults]

/-- The invariant only looks at `history` and `system_prompt`. -/
theorem sessionInvariant_of_eq {s s' : Session} (hm : history s' = history s)
    (hp : s'.system_prompt = s.system_prompt) (h : sessionInvariant s) :
    sessionInvariant s' := by
  unfold sessionInvariant at h ⊢
  simp only [hm, hp]
  exact h

/-- `new_chat` establishes the invariant unconditionally. -/
theorem sessionInvariant_new_chat (s : Session) : sessionInvariant (new_chat s) := by
  cases hp : s.system_prompt <;> simp [new_chat, hp, sessionInvariant, history]

/-- Appending the user and assistant turns of a completed turn preserves
the invariant. -/
theorem sessionInvariant_commitTurn (s : Session) (msg acc : String)
    (h : sessionInvariant s) : sessionInvariant (commitTurn s msg acc) := by
  unfold sessionInvariant at h ⊢
  have hp : (commitTurn s msg acc).system_prompt = s.system_prompt := rfl
  have hh : history (commitTurn s msg acc) = history s ++
      [{ role := Role.user, content := msg },
       { role := Role.assistant, content := acc }] := by
    simp [history, commitTurn]
  simp only [hp, hh]
  cases hps : s.system_prompt with
  | none =>
    simp only [hps] at h ⊢
    intro t ht
    rcases List.mem_append.mp ht with h1 | h2
    · exact h t h1
    · simp only [List.mem_cons, List.not_mem_nil, or_false] at h2
      rcases h2 with rfl | rfl <;> simp
  | some p =>
    simp only [hps] at h ⊢
    cases hl : history s with
    | nil => rw [hl] at h; cases h
    | cons x xs => rw [hl] at h; simpa using h

/-- Claim C1: every mutating operation the handlers expose on a session
(new-chat reset, system-prompt change, message handling, with the audio
toggle and model change included for completeness) preserves the spec
session invariant: if `system_prompt` is set, `history[0]` exists, has
role `system` and its content equals `system_prompt`; if it is absent, no
turn in the history has role `system`. -/
theorem C1_invariant_preserved (op : Op) (s : Session) (h : sessionInvariant s) :
    sessionInvariant (applyOp op s) := by
  cases op with
  | newChat => exact sessionInvariant_new_chat s
  | sysPrompt t => exact sessionInvariant_new_chat _
  | audioToggle => exact sessionInvariant_of_eq rfl rfl h
  | changeModel d => exact sessionInvariant_of_eq rfl rfl h
  | handleMsg m f tr sf dr gf sn =>
    show sessionInvariant (message_handler s m f tr sf dr gf sn).session
    unfold message_handler
    split_ifs with h1 h2
    · exact sessionInvariant_of_eq (history_ensureDefaults s) rfl h
    · exact sessionInvariant_commitTurn _ _ _
        (sessionInvariant_of_eq (history_ensureDefaults s) rfl h)
    · exact sessionInvariant_of_eq (history_ensureDefaults s) rfl h

/-- Witness for C1: a fresh session satisfies the invariant and still
does after a new-chat reset. -/
theorem C1_invariant_preserved_witness :
    sessionInvariant s0 ∧ sessionInvariant (applyOp Op.newChat s0) :=
  ⟨by decide, C1_invariant_preserved Op.newChat s0 (by decide)⟩

/-- Claim C2: a streaming turn that fails (the failure branch of
`message_handler`, entered when the fragment stream raises or the
transport rejects an edit) leaves the session's history exactly as it was
before the turn began: nothing is appended on the failure path. -/
theorem C2_failed_turn_preserves_history (s : Session) (msg : String)
    (frags : List (Option String)) (tr : Nat → TResp) (streamFails : Bool)
    (dr : Option String) (gf sn : Bool)
    (h : (message_handler s msg frags tr streamFails dr gf sn).errorEdit = true) :
    history (message_handler s msg frags tr streamFails dr gf sn).session = history s := by
  by_cases h1 : msg = ""
  · unfold message_handler at h
    rw [if_pos h1] at h
    simp at h
  · by_cases h2 : ((runStream tr frags streamInit).2 && !streamFails) = true
    · unfold message_handler at h
      rw [if_neg h1, if_pos h2] at h
      simp at h
    · unfold message_handler
      rw [if_neg h1, if_neg h2]
      exact history_ensureDefaults s

/-- Witness for C2: a turn whose stream raises after yielding no
fragments ends in the failure branch with the history unchanged. -/
theorem C2_failed_turn_preserves_history_witness :
    (message_handler s0 "hi" [] trOk true none false false).errorEdit = true ∧
    history (message_handler s0 "hi" [] trOk true none false false).session = history s0 :=
  ⟨by decide, C2_failed_turn_preserves_history s0 "hi" [] trOk true none false false (by decide)⟩

/-- Claim C3: while the prompt-change flow awaits a prompt,
`get_system_prompt` clears `system_prompt` when the submitted text
lowercased and stripped of surrounding whitespace equals "clear", and
otherwise sets it to the literal message text; both branches reset the
session (`history` becomes `[]`, or the single system turn) and return
the flow to idle. -/
theorem C3_prompt_change (s : Session) (text : String) :
    (get_system_prompt text s).2 = PromptFlow.idle ∧
    (if text.toLower.trim = "clear"
      then (get_system_prompt text s).1.system_prompt = none ∧
        history (get_system_prompt text s).1 = []
      else (get_system_prompt text s).1.system_prompt = some text ∧
        history (get_system_prompt text s).1 =
          [{ role := Role.system, content := text }]) := by
  constructor
  · rfl
  · split_ifs with h <;> simp [get_system_prompt, h, new_chat, history]

/-- Claim C9: on an inbound message whose text is empty the handler sends
the "Generating response..." placeholder and returns: the completion
client is never invoked, the placeholder is never edited (neither with
output nor with an error notice), and the session's history is
unchanged. -/
theorem C9_empty_message (s : Session) (frags : List (Option String))
    (tr : Nat → TResp) (sf : Bool) (dr : Option String) (gf sn : Bool) :
    (message_handler s "" frags tr sf dr gf sn).placeholderSent = true ∧
    (message_handler s "" frags tr sf dr gf sn).completionCalled = false ∧
    (message_handler s "" frags tr sf dr gf sn).edits = [] ∧
    (message_handler s "" frags tr sf dr gf sn).errorEdit = false ∧
    history (message_handler s "" frags tr sf dr gf sn).session = history s := by
  unfold message_handler
  simp [history_ensureDefaults]

/-- Claim C10: the audio toggle is an involution on the effective voice
setting (an unset key is read as `true`), and a single application
changes no session field other than `voice_enabled`. -/
theorem C10_audio_toggle_involution (s : Session) :
    (audio_command_handler (audio_command_handler s)).voice_enabled.getD true
        = s.voice_enabled.getD true ∧
    (audio_command_handler s).messages = s.messages ∧
    (audio_command_handler s).system_prompt = s.system_prompt ∧
    (audio_command_handler s).model = s.model := by
  cases hv : s.voice_enabled <;> simp [audio_command_handler, hv]

/-- On a transport that accepts every edit, the fragment loop pushes one
edit per non-empty fragment, carrying the render of the accumulated text,
and terminates without raising. -/
theorem runStream_trOk (frags : List (Option String)) : ∀ st : StreamState,
    (runStream trOk frags st).1.edits = st.edits ++ renderedEdits st.acc frags ∧
    (runStream trOk frags st).2 = true := by
  induction frags with
  | nil => intro st; simp [runStream, renderedEdits]
  | cons f rest ih =>
    intro st
    rcases f with _ | t
    · simpa [runStream, renderedEdits] using ih st
    · by_cases ht : t = ""
      · simpa [runStream, renderedEdits, ht] using ih st
      · have h2 := ih (StreamState.mk (format_message (st.acc ++ t)) (st.acc ++ t) (st.edits ++ [format_message (st.acc ++ t)]) (st.idx + 1))
        simp only [runStream, renderedEdits, trOk, if_neg ht] at h2 ⊢
        refine ⟨?_, h2.2⟩
        rw [h2.1, List.append_assoc, List.singleton_append]

/-- Claim C4 as stated is false on the code: in the run below the second
fragment is just the closing delimiter `*`; under the renderer's
implicit-close policy the render of the grown text equals the previously
emitted text, yet `message_handler` pushes a second, identical edit — its
guard is fragment truthiness, not a comparison with the last emitted
text. -/
theorem C4_counterexample :
    ¬ List.Chain' (fun a b => a ≠ b)
      (streamInit.display ::
        (message_handler s0 "hi" [some "a*b", some "*"] trOk false none false false).edits) := by
  intro hch
  have he : (message_handler s0 "hi" [some "a*b", some "*"] trOk false none false false).edits
      = ["a<i>b</i>", "a<i>b</i>"] := by decide
  rw [he] at hch
  exact (List.chain'_cons.mp ((List.chain'_cons.mp hch).2)).1 rfl

/-- Claim C4 amended: the guard of the edit loop is fragment truthiness,
not a change of the rendered output: on a transport that accepts every
edit, exactly one edit is pushed per non-empty fragment, carrying the
render of the accumulated text, even when that render equals the last
emitted text; a `None` or empty fragment pushes no edit. -/
theorem C4_amended_edit_per_truthy_fragment (s : Session) (msg : String)
    (frags : List (Option String)) (dr : Option String) (gf sn : Bool)
    (h : msg ≠ "") :
    (message_handler s msg frags trOk false dr gf sn).edits = renderedEdits "" frags := by
  have hr := runStream_trOk frags streamInit
  unfold message_handler
  rw [if_neg h, if_pos (by simp [hr.2])]
  simpa [streamInit] using hr.1

/-- Witness for the amended C4: a single-fragment stream pushes exactly
the render of that fragment. -/
theorem C4_amended_witness :
    (message_handler s0 "hi" [some "x"] trOk false none false false).edits =
      renderedEdits "" [some "x"] :=
  C4_amended_edit_per_truthy_fragment s0 "hi" [some "x"] none false false (by decide)

/-- Claim C5: every registered command entry point and plain-message
entry point carries a filter that checks authorization, so an
unauthorized event invokes no handler and produces no reply. -/
theorem C5_unauthorized_silently_ignored :
    ∀ h ∈ handlersRegistrations ++ botRegistrations,
      isCoreEntry h.kind = true → handlerInvoked h false = false := by
  decide

/-- Witness for C5: the /start registration is in the table and its
handler is not invoked for an unauthorized event. -/
theorem C5_unauthorized_silently_ignored_witness :
    (({ kind := EntryKind.command "start", filter := HFilter.authFilter } : HandlerReg) ∈
      handlersRegistrations ++ botRegistrations) ∧
    handlerInvoked { kind := EntryKind.command "start", filter := HFilter.authFilter } false = false :=
  ⟨by decide,
    C5_unauthorized_silently_ignored
      { kind := EntryKind.command "start", filter := HFilter.authFilter }
      (by decide) (by decide)⟩

/-- Claim C6 as stated is false on the code: with `model` unset, message
handling reads default `llama-3.1-8b-instant` while the info command
displays default `llama3-8b-8192`. -/
theorem C6_counterexample :
    ¬ ((message_handler s0 "hi" [] trOk false none false false).modelUsed
        = some (info_command_handler s0)) := by
  decide

/-- Claim C6 amended: the two read paths hardcode two different defaults:
for a session whose `model` is unset, message handling uses
`llama-3.1-8b-instant` (handlers.py line 185) while the info command
displays `llama3-8b-8192` (handlers.py line 240). -/
theorem C6_two_distinct_defaults (s : Session) (msg : String)
    (frags : List (Option String)) (tr : Nat → TResp) (sf : Bool)
    (dr : Option String) (gf sn : Bool)
    (hm : s.model = none) (hmsg : msg ≠ "") :
    (message_handler s msg frags tr sf dr gf sn).modelUsed = some "llama-3.1-8b-instant" ∧
    info_command_handler s = "llama3-8b-8192" := by
  constructor
  · unfold message_handler
    rw [if_neg hmsg]
    by_cases h2 : ((runStream tr frags streamInit).2 && !sf) = true
    · rw [if_pos h2]
      simp [ensureDefaults, hm]
    · rw [if_neg h2]
      simp [ensureDefaults, hm]
  · simp [info_command_handler, hm]

/-- Witness for the amended C6 at a fresh session. -/
theorem C6_two_distinct_defaults_witness :
    (message_handler s0 "hi" [] trOk false none false false).modelUsed
        = some "llama-3.1-8b-instant" ∧
    info_command_handler s0 = "llama3-8b-8192" :=
  C6_two_distinct_defaults s0 "hi" [] trOk false none false false rfl (by decide)

/-- Claim C7, evaluated at the failing input: the transport rejects the
single edit as NotModified; `message_handler` has no per-edit exception
handling, so the rejection reaches the blanket `except`, the output is
replaced by the generic failure notice and no assistant turn is appended
— the turn transitions to Failed, contradicting the claim that a
NotModified rejection is treated as success. -/
theorem C7_notModified_fails_turn :
    (message_handler s0 "hi" [some "Hi"] (fun _ => TResp.notModified) false none false false).errorEdit
        = true ∧
    (message_handler s0 "hi" [some "Hi"] (fun _ => TResp.notModified) false none false false).session.messages
        = some [] ∧
    (message_handler s0 "hi" [some "Hi"] (fun _ => TResp.notModified) false none false false).edits
        = ["Hi"] := by
  decide

/-- Claim C8: on a turn that completes normally, the voice step's inputs
(the language-detection outcome, a gTTS failure, a failure sending the
voice message) affect neither the committed session, nor the emitted
edits, nor the absence of an error notice; a failure there only
suppresses the voice message. -/
theorem C8_voice_failure_isolated (s : Session) (msg : String)
    (frags : List (Option String)) (tr : Nat → TResp) (dr : Option String)
    (gf sn : Bool) (hmsg : msg ≠ "")
    (hok : (runStream tr frags streamInit).2 = true) :
    (message_handler s msg frags tr false dr gf sn).session
        = (message_handler s msg frags tr false none false false).session ∧
    (message_handler s msg frags tr false dr gf sn).edits
        = (message_handler s msg frags tr false none false false).edits ∧
    (message_handler s msg frags tr false dr gf sn).errorEdit = false ∧
    (message_handler s msg frags tr false dr gf sn).voiceSent
        = ((ensureDefaults s).voice_enabled.getD true
            && (text_to_wav dr gf).isSome && !sn) := by
  unfold message_handler
  rw [if_neg hmsg, if_neg hmsg, if_pos (by simp [hok]), if_pos (by simp [hok])]
  simp

/-- Witness for C8: a successful one-fragment turn with a gTTS failure
commits the same session and edits as the failure-free voice step. -/
theorem C8_voice_failure_isolated_witness :
    (message_handler s0 "hi" [some "Hi"] trOk false none true false).session
        = (message_handler s0 "hi" [some "Hi"] trOk false none false false).session ∧
    (message_handler s0 "hi" [some "Hi"] trOk false none true false).edits
        = (message_handler s0 "hi" [some "Hi"] trOk false none false false).edits ∧
    (message_handler s0 "hi" [some "Hi"] trOk false none true false).errorEdit = false ∧
    (message_handler s0 "hi" [some "Hi"] trOk false none true false).voiceSent
        = ((ensureDefaults s0).voice_enabled.getD true
            && (text_to_wav none true).isSome && !false) :=
  C8_voice_failure_isolated s0 "hi" [some "Hi"] trOk none true false (by decide) (by decide)
